import Mathlib

/-!
Shallow embedding of the Replicated State Machine core of
`logdevice/common/replicated_state_machine/ReplicatedStateMachine-inl.h`.

LSNs are naturals (`LSN_INVALID = 0`, `LSN_OLDEST = 1`).  The materialized
state type `T` and the delta type `D` stay abstract: the template hooks
(`applyDelta`, `makeDefaultState`) are passed as explicit function
parameters, and the results of the external deserializers are carried on
the incoming record.  Side effects that are visible to clients
(pending-confirmation callbacks, subscriber notifications, critical log
lines, read-stream resumption) are recorded in an event list returned next
to the updated state.  Timers are modelled as boolean "armed" flags.
-/

namespace LogDevice

def LSN_INVALID : Nat := 0

def LSN_OLDEST : Nat := 1

inductive Status
  | OK
  | STALE
  | AGAIN
  | NOBUFS
  | NOTSUPPORTED
  | TIMEDOUT
  | NOTFOUND
  | FAILED
  | BADMSG
  | INPROGRESS
  | UPTODATE
  | EMPTY
  deriving DecidableEq, Repr

inductive SyncState
  | SYNC_SNAPSHOT
  | SYNC_DELTAS
  | TAILING
  deriving DecidableEq, Repr

inductive GapType
  | TRIM
  | DATALOSS
  | BRIDGE
  deriving DecidableEq, Repr

inductive WriteMode
  | CONFIRM_APPEND_ONLY
  | CONFIRM_APPLIED
  deriving DecidableEq, Repr

/-- Externally visible side effects of one synchronous call into the RSM. -/
inductive Event
  | confirm (uuid : Nat) (st : Status) (lsn : Nat) (reason : String)
  | callerCb (st : Status) (lsn : Nat) (reason : String)
  | notify (subscriber : Nat) (version : Nat) (withDelta : Bool)
  | applyInvoked (lsn : Nat) (ok : Bool)
  | logCritical
  | resumeDeltaRead
  deriving DecidableEq, Repr

/-- One entry of `pending_confirmation_`: the uuid key and the append lsn
(`LSN_INVALID` until the append completes).  The callback itself is
identified by the uuid in emitted `Event.confirm` events. -/
structure PendingEntry where
  uuid : Nat
  lsn : Nat
  deriving DecidableEq, Repr

/-- Result of the template hook `applyDelta(delta, data, lsn, ts, reason)`:
`ok` mirrors `rv == 0`, `newData` the (possibly mutated) state, `err` the
global `err` set on failure, `reason` the failure string written into the
by-reference argument. -/
structure ApplyResult (T : Type) where
  ok : Bool
  newData : T
  err : Status
  reason : String
  deriving DecidableEq, Repr

/-- Decoded snapshot header.  `has_read_ptr` mirrors
`format_version >= CONTAINS_DELTA_LOG_READ_PTR_AND_LENGTH`. -/
structure RSMSnapshotHeader where
  base_version : Nat
  has_read_ptr : Bool
  delta_log_read_ptr : Nat
  byte_offset : Nat
  offset : Nat
  deriving DecidableEq, Repr

structure SnapshotAttributes where
  base_version : Nat
  deriving DecidableEq, Repr

/-- A delta-log record as seen by `onDeltaRecord`, carrying the outcome of
the frame parsing (`header_uuid = 0` models the nil uuid of a headerless
frame) and of the external `deserializeDelta` hook (`decoded`, with
`decode_err` the `err` value it sets on failure). -/
structure DeltaRecord (D : Type) where
  lsn : Nat
  payload_size : Nat
  header_uuid : Nat
  decoded : Option D
  decode_err : Status
  deriving DecidableEq, Repr

structure GapRecord where
  type : GapType
  lo : Nat
  hi : Nat
  deriving DecidableEq, Repr

/-- Core state of one `ReplicatedStateMachine<T, D>` instance.  Timer
members are modelled as "armed" booleans. -/
structure ReplicatedStateMachine (T : Type) where
  data : T
  version : Nat := LSN_INVALID
  last_snapshot_version : Nat := LSN_INVALID
  last_snapshot_last_read_ptr : Nat := LSN_INVALID
  delta_read_ptr : Nat := LSN_INVALID
  delta_log_byte_offset : Nat := 0
  delta_log_offset : Nat := 0
  last_snapshot_byte_offset : Nat := 0
  last_snapshot_offset : Nat := 0
  snapshot_sync : Nat := LSN_INVALID
  delta_sync : Nat := LSN_INVALID
  waiting_for_snapshot : Nat := LSN_INVALID
  sync_state : SyncState := SyncState.SYNC_SNAPSHOT
  pending_confirmation : List PendingEntry := []
  subscribers : List Nat := []
  latest_published_version : Option Nat := none
  state_delivery_blocked : Bool := false
  deliver_while_replaying : Bool := false
  stall_if_data_loss : Bool := false
  can_skip_bad_snapshot : Bool := false
  stop_at_tail : Bool := false
  stop_scheduled : Bool := false
  stopped : Bool := true
  snapshot_in_flight : Bool := false
  last_written_version : Nat := LSN_INVALID
  delta_read_stream_is_healthy : Bool := true
  write_delta_header : Bool := true
  snapshot_log_configured : Bool := true
  snapshot_store_configured : Bool := false
  max_pending_confirmation : Nat := 500
  ff_grace_timer_active : Bool := false
  allow_fast_forward_up_to : Nat := LSN_INVALID
  stall_grace_timer_active : Bool := false
  snapshot_fetch_timer_active : Bool := false
  snapshotting_timer_active : Bool := false
  bumped_stalled_stat : Bool := false
  deriving DecidableEq, Repr

namespace ReplicatedStateMachine

variable {T D : Type}

/-- `notifySubscribers(delta)`: skips everything if there are no
subscribers or delivery is blocked by the experimentation setting;
otherwise delivers `(data, delta, version)` to every subscriber in order
and records the latest published version. -/
def notifySubscribers (s : ReplicatedStateMachine T) (withDelta : Bool) :
    ReplicatedStateMachine T × List Event :=
  if s.subscribers.isEmpty then (s, [])
  else if s.state_delivery_blocked = true then (s, [])
  else
    ({ s with latest_published_version := some s.version },
     s.subscribers.map (fun i => Event.notify i s.version withDelta))

/-- The loop body of `discardSkippedPendingDeltas`: pops entries off the
front of the FIFO while the front entry has a known append lsn that is
already at or below `version`, firing its callback with
`E::FAILED, "Cannot confirm operation"`. -/
def discardLoop (version : Nat) :
    List PendingEntry → List PendingEntry × List Event
  | [] => ([], [])
  | e :: rest =>
    if e.lsn ≠ LSN_INVALID ∧ e.lsn ≤ version then
      let r := discardLoop version rest
      (r.1, Event.confirm e.uuid Status.FAILED e.lsn "Cannot confirm operation" :: r.2)
    else (e :: rest, [])

def discardSkippedPendingDeltas (s : ReplicatedStateMachine T) :
    ReplicatedStateMachine T × List Event :=
  let r := discardLoop s.version s.pending_confirmation
  ({ s with pending_confirmation := r.1 }, r.2)

/-- `canFastForward(lsn)`: returns `false` while the grace-period timer is
active; arms the timer (recording `allow_fast_forward_up_to_`) and returns
`false` on the first observation past the recorded bound; returns `true`
once the timer has expired. -/
def canFastForward (s : ReplicatedStateMachine T) (lsn : Nat) :
    Bool × ReplicatedStateMachine T :=
  if s.ff_grace_timer_active = true then (false, s)
  else if s.allow_fast_forward_up_to < lsn then
    (false, { s with allow_fast_forward_up_to := lsn, ff_grace_timer_active := true })
  else (true, s)

/-- `onBaseSnapshotRetrieved()`: arms the periodic snapshotting timer,
moves to `SYNC_DELTAS`, and seeds `delta_read_ptr_` from the last
snapshot's read pointer if delta reading has not started yet.  (The
`getDeltaLogTailLSN()` request it issues is asynchronous and mutates no
core state synchronously.) -/
def onBaseSnapshotRetrieved (s : ReplicatedStateMachine T) :
    ReplicatedStateMachine T :=
  let s1 := { s with snapshotting_timer_active := true,
                     sync_state := SyncState.SYNC_DELTAS }
  if s1.delta_read_ptr = LSN_INVALID then
    { s1 with delta_read_ptr := s1.last_snapshot_last_read_ptr }
  else s1

/-- `onReachedDeltaLogTailLSN()`: enter `TAILING`, deliver the first update
to subscribers unless they were already being updated during replay, and
schedule the stop if `stop_at_tail_`. -/
def onReachedDeltaLogTailLSN (s : ReplicatedStateMachine T) :
    ReplicatedStateMachine T × List Event :=
  let s1 := { s with sync_state := SyncState.TAILING }
  let n := if s1.deliver_while_replaying = false then notifySubscribers s1 false
           else (s1, [])
  let s2 := if n.1.stop_at_tail = true then { n.1 with stop_scheduled := true }
            else n.1
  (s2, n.2)

/-- Common tail of `processSnapshot` (runs on every path that does not
return `false` early): base-snapshot bookkeeping, clearing of
`waiting_for_snapshot_` once the snapshot covers the missed data,
`discardSkippedPendingDeltas()`, cancellation of the fast-forward grace
timer, and resumption of the delta read stream as the final action. -/
def processSnapshotCommonTail (attrs : SnapshotAttributes)
    (s : ReplicatedStateMachine T) (evs : List Event) :
    Bool × ReplicatedStateMachine T × List Event :=
  let s1 := if s.sync_state = SyncState.SYNC_SNAPSHOT ∧
               attrs.base_version ≥ s.snapshot_sync
            then onBaseSnapshotRetrieved s else s
  let resumed :=
    if s1.waiting_for_snapshot ≠ LSN_INVALID ∧
       (s1.version ≥ s1.waiting_for_snapshot ∨
        s1.last_snapshot_last_read_ptr ≥ s1.waiting_for_snapshot) then
      ({ s1 with waiting_for_snapshot := LSN_INVALID,
                 stall_grace_timer_active := false,
                 bumped_stalled_stat := false },
       [Event.resumeDeltaRead])
    else (s1, ([] : List Event))
  let d := discardSkippedPendingDeltas resumed.1
  let s3 := { d.1 with ff_grace_timer_active := false }
  (true, s3, evs ++ d.2 ++ resumed.2)

/-- The wholesale state replacement of the fast-forward branch of
`processSnapshot` (`header.base_version > version_`). -/
def applySnapshotState (newData : T) (header : RSMSnapshotHeader)
    (s : ReplicatedStateMachine T) : ReplicatedStateMachine T :=
  { s with
    data := newData,
    version := header.base_version,
    last_snapshot_version := header.base_version,
    last_snapshot_last_read_ptr :=
      if header.has_read_ptr = true then header.delta_log_read_ptr
      else LSN_INVALID,
    delta_log_byte_offset := header.byte_offset,
    delta_log_offset := header.offset }

/-- The metadata-only update of `processSnapshot` when only the read
pointer moved forward. -/
def updateReadPtrState (header : RSMSnapshotHeader)
    (s : ReplicatedStateMachine T) : ReplicatedStateMachine T :=
  { s with last_snapshot_last_read_ptr := header.delta_log_read_ptr,
           delta_log_byte_offset := header.byte_offset,
           delta_log_offset := header.offset }

/-- The `rv == 0` update of the `last_snapshot_*` counters. -/
def maxOffsetsState (header : RSMSnapshotHeader)
    (s : ReplicatedStateMachine T) : ReplicatedStateMachine T :=
  { s with
    last_snapshot_byte_offset :=
      max header.byte_offset s.last_snapshot_byte_offset,
    last_snapshot_offset := max header.offset s.last_snapshot_offset }

/-- `processSnapshot(payload, attrs)`.  `dec` is the outcome of
`deserializeSnapshot`: `none` on a decode failure (`rv != 0`), otherwise
the new state and decoded header. -/
def processSnapshot (dec : Option (T × RSMSnapshotHeader))
    (attrs : SnapshotAttributes) (s : ReplicatedStateMachine T) :
    Bool × ReplicatedStateMachine T × List Event :=
  match dec with
  | none =>
    if s.can_skip_bad_snapshot = false then (false, s, [Event.logCritical])
    else processSnapshotCommonTail attrs s [Event.logCritical]
  | some (newData, header) =>
    if header.base_version > s.version then
      let ff := if s.sync_state = SyncState.TAILING ∧
                   s.waiting_for_snapshot = LSN_INVALID
                then canFastForward s header.base_version
                else (true, s)
      if ff.1 = false then (false, ff.2, [])
      else
        let s2 := applySnapshotState newData header ff.2
        let n := if s2.sync_state = SyncState.TAILING ∨
                    s2.deliver_while_replaying = true
                 then notifySubscribers s2 false else (s2, [])
        processSnapshotCommonTail attrs (maxOffsetsState header n.1) n.2
    else
      let s2 :=
        if header.has_read_ptr = true ∧
           header.delta_log_read_ptr > s.last_snapshot_last_read_ptr then
          updateReadPtrState header s
        else s
      processSnapshotCommonTail attrs (maxOffsetsState header s2) []

/-- Lookup in `pending_confirmation_by_uuid_`, modelled as the first list
entry with the given uuid. -/
def findByUuid (u : Nat) : List PendingEntry → Option PendingEntry
  | [] => none
  | e :: rest => if e.uuid = u then some e else findByUuid u rest

/-- Erasure of the entry found by `findByUuid` from the FIFO. -/
def removeFirstByUuid (u : Nat) : List PendingEntry → List PendingEntry
  | [] => []
  | e :: rest => if e.uuid = u then rest else e :: removeFirstByUuid u rest

/-- The per-delta confirmation step of `onDeltaRecord` (uuid lookup in
`pending_confirmation_by_uuid_`): fires the callback with the delta's
status and erases the entry unless delivery is blocked by the
experimentation setting. -/
def deltaConfirmStep (st : Status) (failure_reason : String)
    (header_uuid lsn : Nat) (s3 : ReplicatedStateMachine T) :
    ReplicatedStateMachine T × List Event :=
  if header_uuid ≠ 0 ∧ (findByUuid header_uuid s3.pending_confirmation).isSome
  then
    if s3.state_delivery_blocked = true then (s3, [])
    else
      ({ s3 with pending_confirmation :=
           removeFirstByUuid header_uuid s3.pending_confirmation },
       [Event.confirm header_uuid st lsn failure_reason])
  else (s3, [])

/-- The common suffix of `onDeltaRecord` after decode/apply (counter
updates, uuid confirmation, `discardSkippedPendingDeltas()`, subscriber
notification, tail detection), entered with the status `st` of this
record, the possibly updated state `s2`, and the instrumentation events
recording whether `applyDelta` ran. -/
def deltaRecordTail (st : Status) (failure_reason : String)
    (rec : DeltaRecord D) (s2 : ReplicatedStateMachine T)
    (applyEvs : List Event) :
    Bool × ReplicatedStateMachine T × List Event :=
  let s3 := { s2 with
    delta_log_byte_offset := s2.delta_log_byte_offset + rec.payload_size,
    delta_log_offset := s2.delta_log_offset + 1 }
  let u := deltaConfirmStep st failure_reason rec.header_uuid rec.lsn s3
  let d := discardSkippedPendingDeltas u.1
  let n := if st = Status.OK ∧
              (d.1.sync_state = SyncState.TAILING ∨
               d.1.deliver_while_replaying = true)
           then notifySubscribers d.1 true else (d.1, [])
  let t := if n.1.sync_state = SyncState.SYNC_DELTAS ∧ rec.lsn ≥ n.1.delta_sync
           then onReachedDeltaLogTailLSN n.1 else (n.1, [])
  (true, t.1, applyEvs ++ u.2 ++ d.2 ++ n.2 ++ t.2)

/-- `onDeltaRecord(record)`.  `applyDelta` is the template hook; the
record carries the outcomes of the frame parser and of the external delta
deserializer. -/
def onDeltaRecord (applyDelta : D → T → Nat → ApplyResult T)
    (rec : DeltaRecord D) (s : ReplicatedStateMachine T) :
    Bool × ReplicatedStateMachine T × List Event :=
  if s.waiting_for_snapshot ≠ LSN_INVALID then (false, s, [])
  else
    let s1 := { s with delta_read_ptr := rec.lsn }
    if rec.lsn ≤ s1.version ∨ rec.lsn ≤ s1.last_snapshot_last_read_ptr then
      (true, s1, [])
    else
      match rec.decoded with
      | none => deltaRecordTail rec.decode_err "" rec s1 []
      | some d =>
        let r := applyDelta d s1.data rec.lsn
        if r.ok = true then
          deltaRecordTail Status.OK r.reason rec
            { s1 with data := r.newData, version := rec.lsn }
            [Event.applyInvoked rec.lsn true]
        else
          deltaRecordTail r.err r.reason rec { s1 with data := r.newData }
            [Event.applyInvoked rec.lsn false]

/-- `onDeltaGap(gap)`.  `makeDefaultState` is the template hook used on a
TRIM gap when no snapshot log is configured. -/
def onDeltaGap (makeDefaultState : Nat → T) (gap : GapRecord)
    (s : ReplicatedStateMachine T) :
    Bool × ReplicatedStateMachine T × List Event :=
  if s.waiting_for_snapshot ≠ LSN_INVALID then (false, s, [])
  else
    let s1 := { s with delta_read_ptr := gap.hi }
    if gap.hi ≤ s1.version ∨ gap.hi ≤ s1.last_snapshot_last_read_ptr then
      (true, s1, [])
    else
      let mid :=
        if s1.snapshot_log_configured = false then
          if gap.type = GapType.DATALOSS then (s1, [Event.logCritical])
          else if gap.type = GapType.TRIM then
            let s2 := { s1 with version := gap.hi }
            let s3 := { s2 with data := makeDefaultState s2.version }
            if s3.sync_state = SyncState.TAILING ∨
               s3.deliver_while_replaying = true then
              notifySubscribers s3 false
            else (s3, [])
          else (s1, [])
        else
          if (gap.type = GapType.DATALOSS ∧ s1.stall_if_data_loss = true) ∨
             (gap.type = GapType.TRIM ∧ s1.version ≠ LSN_OLDEST) then
            ({ s1 with waiting_for_snapshot := gap.hi,
                       stall_grace_timer_active := true,
                       snapshot_fetch_timer_active := true }, [])
          else (s1, [])
      let t := if mid.1.sync_state = SyncState.SYNC_DELTAS ∧
                  gap.hi ≥ mid.1.delta_sync
               then onReachedDeltaLogTailLSN mid.1 else (mid.1, [])
      (true, t.1, mid.2 ++ t.2)

/-- Outcome of the synchronous part of `writeDelta`: the new core state,
the callbacks invoked synchronously, whether an append request was
submitted, and whether a pending-confirmation entry was created. -/
structure WriteDeltaResult (T : Type) where
  state : ReplicatedStateMachine T
  events : List Event
  append_submitted : Bool
  pending_created : Bool
  deriving DecidableEq, Repr

/-- Synchronous part of `writeDelta(payload, cb, mode, base_version)`.
`uuid` models the freshly generated uuid.  Mirrors the source control
flow, including the fall-through after the `E::NOTSUPPORTED` callback. -/
def writeDelta (uuid : Nat) (mode : WriteMode) (base_version : Option Nat)
    (s : ReplicatedStateMachine T) : WriteDeltaResult T :=
  if mode = WriteMode.CONFIRM_APPLIED ∧ s.sync_state ≠ SyncState.TAILING then
    ⟨s, [Event.callerCb Status.AGAIN LSN_INVALID "Operation is now allowed!"],
     false, false⟩
  else if mode = WriteMode.CONFIRM_APPLIED ∧
          s.delta_read_stream_is_healthy = false then
    ⟨s, [Event.callerCb Status.AGAIN LSN_INVALID
          "Cannot perform operation: Please try again!"], false, false⟩
  else if mode = WriteMode.CONFIRM_APPLIED ∧
          s.pending_confirmation.length > s.max_pending_confirmation then
    ⟨s, [Event.callerCb Status.NOBUFS LSN_INVALID
          "Cannot perform operation: Too many messages queued already."],
     false, false⟩
  else
    let evs0 : List Event :=
      if mode = WriteMode.CONFIRM_APPLIED ∧ s.write_delta_header = false then
        [Event.callerCb Status.NOTSUPPORTED LSN_INVALID
          "Operation Not Supported"]
      else []
    let stale :=
      match base_version with
      | some bv => decide (bv < s.version)
      | none => false
    if stale = true then
      ⟨s, evs0 ++ [Event.callerCb Status.STALE LSN_INVALID
            "Cannot perform operation: Version conflict!"], false, false⟩
    else
      let s1 :=
        if mode = WriteMode.CONFIRM_APPLIED then
          { s with pending_confirmation :=
              s.pending_confirmation ++ [⟨uuid, LSN_INVALID⟩] }
        else s
      ⟨s1, evs0, true, mode = WriteMode.CONFIRM_APPLIED⟩

/-- Outcome of a call to `snapshot(cb)`. -/
inductive SnapshotOutcome
  | rejected (st : Status)
  | skippedUpToDate
  | writeIssued
  deriving DecidableEq, Repr

/-- Synchronous decision logic of `snapshot(cb)`.  `include_read_ptr` is
the `rsm_include_read_pointer_in_snapshot` worker setting. -/
def snapshotOp (include_read_ptr : Bool) (s : ReplicatedStateMachine T) :
    SnapshotOutcome × ReplicatedStateMachine T :=
  if s.snapshot_log_configured = false then
    (SnapshotOutcome.rejected Status.NOTSUPPORTED, s)
  else if s.snapshot_in_flight = true then
    (SnapshotOutcome.rejected Status.INPROGRESS, s)
  else if s.sync_state ≠ SyncState.TAILING then
    (SnapshotOutcome.rejected Status.AGAIN, s)
  else if include_read_ptr = true ∧ s.delta_read_ptr < s.version then
    (SnapshotOutcome.rejected Status.FAILED, s)
  else
    let writing := s.snapshot_store_configured = false ∨
       s.version > s.last_written_version ∨
       (include_read_ptr = true ∧
        s.last_snapshot_last_read_ptr < s.delta_read_ptr)
    if writing then (SnapshotOutcome.writeIssued,
                     { s with snapshot_in_flight := true })
    else (SnapshotOutcome.skippedUpToDate, s)

/-- `subscribe(cb)`: if tailing, deliver `(data, nullptr, version)` to the
new subscriber immediately; then record the subscriber. -/
def subscribe (cbId : Nat) (s : ReplicatedStateMachine T) :
    ReplicatedStateMachine T × List Event :=
  let evs := if s.sync_state = SyncState.TAILING then
               [Event.notify cbId s.version false]
             else []
  ({ s with subscribers := s.subscribers ++ [cbId] }, evs)

/-- Configuration chosen at construction / `start()` time. -/
structure Config where
  snapshot_log_configured : Bool
  snapshot_store_configured : Bool
  deliver_while_replaying : Bool
  stall_if_data_loss : Bool
  can_skip_bad_snapshot : Bool
  write_delta_header : Bool
  stop_at_tail : Bool
  deriving DecidableEq, Repr

/-- `start()`: seed `data_ = makeDefaultState(version_)` with
`version_ = LSN_INVALID`, then — when no snapshot log is configured —
skip snapshot sync via `onBaseSnapshotRetrieved()`. -/
def start (makeDefaultState : Nat → T) (cfg : Config) :
    ReplicatedStateMachine T :=
  let s : ReplicatedStateMachine T :=
    { data := makeDefaultState LSN_INVALID,
      snapshot_log_configured := cfg.snapshot_log_configured,
      snapshot_store_configured := cfg.snapshot_store_configured,
      deliver_while_replaying := cfg.deliver_while_replaying,
      stall_if_data_loss := cfg.stall_if_data_loss,
      can_skip_bad_snapshot := cfg.can_skip_bad_snapshot,
      write_delta_header := cfg.write_delta_header,
      stop_at_tail := cfg.stop_at_tail,
      stopped := false }
  if cfg.snapshot_log_configured = false then onBaseSnapshotRetrieved s else s

/-- One externally triggered operation of the state machine, at the
granularity the invariant claims quantify over.  Records and gaps respect
the read-stream ordering precondition asserted by the source
(`ld_check(lsn > delta_read_ptr_)`), which is only evaluated when the
machine is not stalled. -/
inductive Step (applyDelta : D → T → Nat → ApplyResult T)
    (makeDefaultState : Nat → T) :
    ReplicatedStateMachine T → ReplicatedStateMachine T → Prop
  | snapshot (dec : Option (T × RSMSnapshotHeader)) (attrs : SnapshotAttributes)
      (s : ReplicatedStateMachine T) :
      Step applyDelta makeDefaultState s (processSnapshot dec attrs s).2.1
  | deltaRecord (rec : DeltaRecord D) (s : ReplicatedStateMachine T)
      (h : s.waiting_for_snapshot = LSN_INVALID → rec.lsn > s.delta_read_ptr) :
      Step applyDelta makeDefaultState s (onDeltaRecord applyDelta rec s).2.1
  | deltaGap (gap : GapRecord) (s : ReplicatedStateMachine T)
      (h : s.waiting_for_snapshot = LSN_INVALID → gap.hi > s.delta_read_ptr) :
      Step applyDelta makeDefaultState s (onDeltaGap makeDefaultState gap s).2.1

/-- States reachable from `start()` by the operations of `Step`. -/
inductive Reachable (applyDelta : D → T → Nat → ApplyResult T)
    (makeDefaultState : Nat → T) (cfg : Config) :
    ReplicatedStateMachine T → Prop
  | init : Reachable applyDelta makeDefaultState cfg (start makeDefaultState cfg)
  | step {s s' : ReplicatedStateMachine T} :
      Reachable applyDelta makeDefaultState cfg s →
      Step applyDelta makeDefaultState s s' →
      Reachable applyDelta makeDefaultState cfg s'

end ReplicatedStateMachine

/-!
Delta-frame codec.  The parsing logic is `deserializeDeltaHeader` /
`deserializeDelta` from the source.  Modelled from the spec: the
`DeltaHeader` struct layout itself (a fixed minimum prefix holding a
32-bit checksum followed by `header_sz`, then the uuid) and the external
`checksum_32bit` function are not part of the excerpt, so the layout is
fixed as checksum at bytes `[0,4)`, `header_sz` at `[4,8)` (so
`offsetof(DeltaHeader, header_sz) = 4` and `MIN_DELTA_HEADER_SZ = 8`),
uuid at `[8,24)` (`sizeof(DeltaHeader) = 24`), and the checksum function
is an explicit parameter.  Bytes are little-endian naturals.
-/

/-- In-memory `DeltaHeader`; `DeltaHeader{}` value-initializes every field
to zero, so `uuid = 0` models the nil uuid. -/
structure DeltaHeader where
  checksum : Nat := 0
  header_sz : Nat := 0
  uuid : Nat := 0
  deriving DecidableEq, Repr

def MIN_DELTA_HEADER_SZ : Nat := 8

def DELTA_HEADER_FULL_SZ : Nat := 24

def DELTA_HEADER_SZ_OFFSET : Nat := 4

/-- Little-endian byte-list decoding. -/
def bytesToNat : List Nat → Nat
  | [] => 0
  | b :: rest => b % 256 + 256 * bytesToNat rest

/-- `memcpy(&header, ptr, n)` restricted to the field at `[off, off+len)`:
only the bytes below `n` are copied, the rest of the field stays zero. -/
def readField (payload : List Nat) (n off len : Nat) : Nat :=
  bytesToNat (((payload.take n).drop off).take len)

/-- The header produced by `memcpy(&header, ptr, n)`. -/
def readDeltaHeaderBytes (payload : List Nat) (n : Nat) : DeltaHeader :=
  { checksum := readField payload n 0 4,
    header_sz := readField payload n 4 4,
    uuid := readField payload n 8 16 }

/-- `deserializeDeltaHeader(payload, header)`: returns whether a header is
present, together with the header out-parameter (meaningful only when the
first component is `true`; the caller reinitializes it otherwise). -/
def deserializeDeltaHeader (chk : List Nat → Nat) (payload : List Nat) :
    Bool × DeltaHeader :=
  if payload.length ≥ MIN_DELTA_HEADER_SZ then
    let h0 := readDeltaHeaderBytes payload MIN_DELTA_HEADER_SZ
    if h0.header_sz ≤ payload.length ∧ h0.header_sz ≥ MIN_DELTA_HEADER_SZ then
      let checksum := chk ((payload.drop DELTA_HEADER_SZ_OFFSET).take
                            (h0.header_sz - DELTA_HEADER_SZ_OFFSET))
      if checksum = h0.checksum then
        (true, readDeltaHeaderBytes payload (min h0.header_sz DELTA_HEADER_FULL_SZ))
      else (false, h0)
    else (false, h0)
  else (false, {})

/-- `deserializeDelta(record, out, header)`: strips the header when one is
present, otherwise leaves the header default-initialized and offers the
whole payload to the external `deserializeDelta(Payload)` hook. -/
def deserializeDelta {D : Type} (chk : List Nat → Nat)
    (deserialize_delta : List Nat → Option D) (payload : List Nat) :
    Option D × DeltaHeader :=
  let r := deserializeDeltaHeader chk payload
  let body := if r.1 = true then payload.drop r.2.header_sz else payload
  let header := if r.1 = true then r.2 else {}
  (deserialize_delta body, header)

/-!
Concrete instances used by counterexamples and witnesses: the state type
and delta type are both `Nat`.
-/

open ReplicatedStateMachine

/-- A trivial `applyDelta` hook that always succeeds by adding the delta. -/
def exApply : Nat → Nat → Nat → ApplyResult Nat :=
  fun d t _ => { ok := true, newData := t + d, err := Status.OK, reason := "" }

/-- A `makeDefaultState` hook. -/
def exMakeDefault : Nat → Nat := fun _ => 0

/-- A configuration with a snapshot log. -/
def exConfig : Config :=
  { snapshot_log_configured := true,
    snapshot_store_configured := true,
    deliver_while_replaying := false,
    stall_if_data_loss := true,
    can_skip_bad_snapshot := false,
    write_delta_header := true,
    stop_at_tail := false }

/-- An old-format snapshot header (no delta-log read pointer) with base
version 2. -/
def c1Header : RSMSnapshotHeader :=
  { base_version := 2, has_read_ptr := false, delta_log_read_ptr := 0,
    byte_offset := 0, offset := 0 }

def c1Start : ReplicatedStateMachine Nat := start exMakeDefault exConfig

/-- The state right after the freshly started machine applies its base
snapshot (base version 2, old format). -/
def c1AfterSnapshot : ReplicatedStateMachine Nat :=
  (processSnapshot (some (7, c1Header)) ⟨2⟩ c1Start).2.1

/-- A generic running state with all-default bookkeeping. -/
def exState : ReplicatedStateMachine Nat := { data := 0, stopped := false }

/-- Tailing, healthy, delta headers disabled: the failing input of the
`CONFIRM_APPLIED` + `!write_delta_header_` preflight. -/
def c2State : ReplicatedStateMachine Nat :=
  { exState with sync_state := SyncState.TAILING, version := 4,
                 delta_read_ptr := 4, write_delta_header := false }

/-- Replaying (`SYNC_DELTAS`) with delivery blocked and one pending
confirmation whose append got lsn 5; `version` is 3. -/
def c3State : ReplicatedStateMachine Nat :=
  { exState with sync_state := SyncState.SYNC_DELTAS, version := 3,
                 delta_read_ptr := 4, delta_sync := 100,
                 state_delivery_blocked := true,
                 pending_confirmation := [⟨1, 5⟩] }

/-- A new-format snapshot header at base version 10. -/
def c3Header : RSMSnapshotHeader :=
  { base_version := 10, has_read_ptr := true, delta_log_read_ptr := 10,
    byte_offset := 0, offset := 0 }

/-- A tailing state at version 6. -/
def c4State : ReplicatedStateMachine Nat :=
  { exState with sync_state := SyncState.TAILING, version := 6,
                 delta_read_ptr := 6, delta_sync := 6 }

/-- A delta record at lsn 9 that decodes to the delta `2`. -/
def c4Record : DeltaRecord Nat :=
  { lsn := 9, payload_size := 12, header_uuid := 0, decoded := some 2,
    decode_err := Status.BADMSG }

/-- A stalled state (`waiting_for_snapshot = 7`). -/
def c5State : ReplicatedStateMachine Nat :=
  { exState with sync_state := SyncState.SYNC_DELTAS, version := 3,
                 delta_read_ptr := 7, waiting_for_snapshot := 7,
                 stall_grace_timer_active := true }

/-- A record and gap arriving at the stalled state. -/
def c5Record : DeltaRecord Nat :=
  { lsn := 8, payload_size := 1, header_uuid := 0, decoded := some 1,
    decode_err := Status.BADMSG }

def c5Gap : GapRecord := { type := GapType.TRIM, lo := 8, hi := 9 }

/-- A state without a snapshot log. -/
def c7State : ReplicatedStateMachine Nat :=
  { exState with snapshot_log_configured := false,
                 sync_state := SyncState.TAILING }

/-- Tailing at version 5 with no snapshot log and one subscriber. -/
def c8State : ReplicatedStateMachine Nat :=
  { exState with snapshot_log_configured := false,
                 sync_state := SyncState.TAILING, version := 5,
                 delta_read_ptr := 5, delta_sync := 5, subscribers := [11] }

def c8TrimGap : GapRecord := { type := GapType.TRIM, lo := 6, hi := 9 }

def c8DatalossGap : GapRecord := { type := GapType.DATALOSS, lo := 6, hi := 9 }

/-- Tailing at version 5 with delivery blocked. -/
def c10State : ReplicatedStateMachine Nat :=
  { exState with sync_state := SyncState.TAILING, version := 5,
                 delta_read_ptr := 5, state_delivery_blocked := true,
                 subscribers := [1, 2] }

/-- The boolean counterpart of the `discardLoop` guard. -/
def discardable (version : Nat) (e : PendingEntry) : Bool :=
  decide (e.lsn ≠ LSN_INVALID ∧ e.lsn ≤ version)

/-- Selects the `applyInvoked` instrumentation events. -/
def isApplyEvent : Event → Bool
  | Event.applyInvoked _ _ => true
  | _ => false

/-- Selects pending-confirmation callback invocations. -/
def isConfirmEvent : Event → Bool
  | Event.confirm _ _ _ _ => true
  | _ => false

def applyEvents (evs : List Event) : List Event := evs.filter isApplyEvent

def confirmEvents (evs : List Event) : List Event := evs.filter isConfirmEvent

/-- A payload carrying a valid header: stored checksum 5, declared
`header_sz` 8, no trailing body. -/
def c6Payload : List Nat := [5, 0, 0, 0, 8, 0, 0, 0]

/-- A checksum function matching `c6Payload`'s stored checksum. -/
def c6Chk : List Nat → Nat := fun _ => 5

/-- A delta deserializer that records the byte count it was offered. -/
def c6Deser : List Nat → Option Nat := fun l => some l.length

/-!  Helper lemmas about the building blocks. -/

variable {T D : Type}

theorem notifySubscribers_version (s : ReplicatedStateMachine T) (b : Bool) :
    (notifySubscribers s b).1.version = s.version := by
  unfold notifySubscribers; split_ifs <;> rfl

theorem notifySubscribers_lsv (s : ReplicatedStateMachine T) (b : Bool) :
    (notifySubscribers s b).1.last_snapshot_version = s.last_snapshot_version := by
  unfold notifySubscribers; split_ifs <;> rfl

theorem notifySubscribers_waiting (s : ReplicatedStateMachine T) (b : Bool) :
    (notifySubscribers s b).1.waiting_for_snapshot = s.waiting_for_snapshot := by
  unfold notifySubscribers; split_ifs <;> rfl

theorem notifySubscribers_lsrp (s : ReplicatedStateMachine T) (b : Bool) :
    (notifySubscribers s b).1.last_snapshot_last_read_ptr =
      s.last_snapshot_last_read_ptr := by
  unfold notifySubscribers; split_ifs <;> rfl

theorem notifySubscribers_data (s : ReplicatedStateMachine T) (b : Bool) :
    (notifySubscribers s b).1.data = s.data := by
  unfold notifySubscribers; split_ifs <;> rfl

theorem notifySubscribers_syncState (s : ReplicatedStateMachine T) (b : Bool) :
    (notifySubscribers s b).1.sync_state = s.sync_state := by
  unfold notifySubscribers; split_ifs <;> rfl

theorem notifySubscribers_drp (s : ReplicatedStateMachine T) (b : Bool) :
    (notifySubscribers s b).1.delta_read_ptr = s.delta_read_ptr := by
  unfold notifySubscribers; split_ifs <;> rfl

theorem notifySubscribers_events (s : ReplicatedStateMachine T) (b : Bool)
    (h : s.state_delivery_blocked = true) : (notifySubscribers s b).2 = [] := by
  unfold notifySubscribers; split_ifs <;> simp_all

theorem notifySubscribers_events_open (s : ReplicatedStateMachine T) (b : Bool)
    (h : s.state_delivery_blocked = false) (h2 : s.subscribers ≠ []) :
    (notifySubscribers s b).2 = s.subscribers.map
      (fun i => Event.notify i s.version b) := by
  unfold notifySubscribers; split_ifs <;> simp_all

theorem discard_version (s : ReplicatedStateMachine T) :
    (discardSkippedPendingDeltas s).1.version = s.version := rfl

theorem discard_lsv (s : ReplicatedStateMachine T) :
    (discardSkippedPendingDeltas s).1.last_snapshot_version =
      s.last_snapshot_version := rfl

theorem discard_waiting (s : ReplicatedStateMachine T) :
    (discardSkippedPendingDeltas s).1.waiting_for_snapshot =
      s.waiting_for_snapshot := rfl

theorem discard_lsrp (s : ReplicatedStateMachine T) :
    (discardSkippedPendingDeltas s).1.last_snapshot_last_read_ptr =
      s.last_snapshot_last_read_ptr := rfl

theorem discard_data (s : ReplicatedStateMachine T) :
    (discardSkippedPendingDeltas s).1.data = s.data := rfl

theorem discard_syncState (s : ReplicatedStateMachine T) :
    (discardSkippedPendingDeltas s).1.sync_state = s.sync_state := rfl

theorem discard_drp (s : ReplicatedStateMachine T) :
    (discardSkippedPendingDeltas s).1.delta_read_ptr = s.delta_read_ptr := rfl

theorem onBase_version (s : ReplicatedStateMachine T) :
    (onBaseSnapshotRetrieved s).version = s.version := by
  unfold onBaseSnapshotRetrieved; simp only []; split_ifs <;> rfl

theorem onBase_lsv (s : ReplicatedStateMachine T) :
    (onBaseSnapshotRetrieved s).last_snapshot_version =
      s.last_snapshot_version := by
  unfold onBaseSnapshotRetrieved; simp only []; split_ifs <;> rfl

theorem onBase_waiting (s : ReplicatedStateMachine T) :
    (onBaseSnapshotRetrieved s).waiting_for_snapshot =
      s.waiting_for_snapshot := by
  unfold onBaseSnapshotRetrieved; simp only []; split_ifs <;> rfl

theorem onBase_lsrp (s : ReplicatedStateMachine T) :
    (onBaseSnapshotRetrieved s).last_snapshot_last_read_ptr =
      s.last_snapshot_last_read_ptr := by
  unfold onBaseSnapshotRetrieved; simp only []; split_ifs <;> rfl

theorem onReached_version (s : ReplicatedStateMachine T) :
    (onReachedDeltaLogTailLSN s).1.version = s.version := by
  unfold onReachedDeltaLogTailLSN
  simp only []
  split_ifs <;> simp_all [notifySubscribers_version]

theorem onReached_lsv (s : ReplicatedStateMachine T) :
    (onReachedDeltaLogTailLSN s).1.last_snapshot_version =
      s.last_snapshot_version := by
  unfold onReachedDeltaLogTailLSN
  simp only []
  split_ifs <;> simp_all [notifySubscribers_lsv]

theorem onReached_lsrp (s : ReplicatedStateMachine T) :
    (onReachedDeltaLogTailLSN s).1.last_snapshot_last_read_ptr =
      s.last_snapshot_last_read_ptr := by
  unfold onReachedDeltaLogTailLSN
  simp only []
  split_ifs <;> simp_all [notifySubscribers_lsrp]

theorem onReached_data (s : ReplicatedStateMachine T) :
    (onReachedDeltaLogTailLSN s).1.data = s.data := by
  unfold onReachedDeltaLogTailLSN
  simp only []
  split_ifs <;> simp_all [notifySubscribers_data]

theorem onReached_waiting (s : ReplicatedStateMachine T) :
    (onReachedDeltaLogTailLSN s).1.waiting_for_snapshot =
      s.waiting_for_snapshot := by
  unfold onReachedDeltaLogTailLSN
  simp only []
  split_ifs <;> simp_all [notifySubscribers_waiting]

theorem onReached_drp (s : ReplicatedStateMachine T) :
    (onReachedDeltaLogTailLSN s).1.delta_read_ptr = s.delta_read_ptr := by
  unfold onReachedDeltaLogTailLSN
  simp only []
  split_ifs <;> simp_all [notifySubscribers_drp]

theorem canFastForward_version (s : ReplicatedStateMachine T) (lsn : Nat) :
    (canFastForward s lsn).2.version = s.version := by
  unfold canFastForward; split_ifs <;> rfl

theorem canFastForward_lsv (s : ReplicatedStateMachine T) (lsn : Nat) :
    (canFastForward s lsn).2.last_snapshot_version = s.last_snapshot_version := by
  unfold canFastForward; split_ifs <;> rfl

theorem canFastForward_of_true (s : ReplicatedStateMachine T) (lsn : Nat)
    (h : (canFastForward s lsn).1 = true) : (canFastForward s lsn).2 = s := by
  unfold canFastForward at *
  split_ifs at h ⊢
  all_goals simp_all

theorem commonTail_version (attrs : SnapshotAttributes)
    (s : ReplicatedStateMachine T) (evs : List Event) :
    (processSnapshotCommonTail attrs s evs).2.1.version = s.version := by
  unfold processSnapshotCommonTail
  simp only []
  split_ifs <;> simp_all [discard_version, onBase_version]

theorem commonTail_lsv (attrs : SnapshotAttributes)
    (s : ReplicatedStateMachine T) (evs : List Event) :
    (processSnapshotCommonTail attrs s evs).2.1.last_snapshot_version =
      s.last_snapshot_version := by
  unfold processSnapshotCommonTail
  simp only []
  split_ifs <;> simp_all [discard_lsv, onBase_lsv]

theorem discardLoop_eq (version : Nat) (l : List PendingEntry) :
    discardLoop version l =
      (l.dropWhile (discardable version),
       (l.takeWhile (discardable version)).map
         (fun e => Event.confirm e.uuid Status.FAILED e.lsn
            "Cannot confirm operation")) := by
  induction l with
  | nil => rfl
  | cons e rest ih =>
    by_cases h : e.lsn ≠ LSN_INVALID ∧ e.lsn ≤ version
    · simp [discardLoop, h, ih, List.dropWhile, List.takeWhile, discardable]
    · simp [discardLoop, h, List.dropWhile, List.takeWhile, discardable]

/-- Claim C9 — `discardSkippedPendingDeltas` resolves (with `E::FAILED`
and reason "Cannot confirm operation") exactly the longest prefix of the
`pending_confirmation_` FIFO whose entries have an append lsn that is
assigned (≠ `LSN_INVALID`) and ≤ `version_`; it stops at the first entry
that fails this test — in particular at the first entry whose append has
not completed — so no later entry is discarded by the call. -/
theorem claim_c9 (s : ReplicatedStateMachine T) :
    discardSkippedPendingDeltas s =
      ({ s with pending_confirmation :=
           s.pending_confirmation.dropWhile (discardable s.version) },
       (s.pending_confirmation.takeWhile (discardable s.version)).map
         (fun e => Event.confirm e.uuid Status.FAILED e.lsn
            "Cannot confirm operation")) := by
  unfold discardSkippedPendingDeltas
  rw [discardLoop_eq]

/-- Claim C10 — `subscribe(cb)` called while `sync_state_` is `TAILING`
delivers `(data, nullptr, version)` to the new subscriber immediately and
unconditionally (in particular it does not consult
`state_delivery_blocked_`, which only gates `notifySubscribers`). -/
theorem claim_c10 (s : ReplicatedStateMachine T) (cbId : Nat)
    (h : s.sync_state = SyncState.TAILING) :
    (subscribe cbId s).2 = [Event.notify cbId s.version false] ∧
    (subscribe cbId s).1.subscribers = s.subscribers ++ [cbId] ∧
    (s.state_delivery_blocked = true →
      (notifySubscribers s true).2 = [] ∧ (notifySubscribers s false).2 = []) := by
  refine ⟨?_, ?_, fun hb => ⟨?_, ?_⟩⟩
  · unfold subscribe; simp [h]
  · rfl
  · exact notifySubscribers_events s true hb
  · exact notifySubscribers_events s false hb

theorem claim_c10_witness :
    c10State.sync_state = SyncState.TAILING ∧
    c10State.state_delivery_blocked = true ∧
    (subscribe 3 c10State).2 = [Event.notify 3 5 false] :=
  ⟨rfl, rfl, (claim_c10 c10State 3 rfl).1⟩

/-- Claim C2 — `writeDelta` with `CONFIRM_APPLIED` while
`write_delta_header_` is disabled: the source invokes the caller's
callback with `E::NOTSUPPORTED` but, missing an early return, still
creates a pending-confirmation entry and submits the append.  This
evaluates the model at that failing input, contradicting the claim that
every preflight error returns without enqueueing an append or creating a
pending entry (the other preflight errors do return early). -/
theorem claim_c2 :
    writeDelta 42 WriteMode.CONFIRM_APPLIED none c2State =
      ⟨{ c2State with pending_confirmation := [⟨42, LSN_INVALID⟩] },
       [Event.callerCb Status.NOTSUPPORTED LSN_INVALID "Operation Not Supported"],
       true, true⟩ := by
  rfl

/-- Claim C6 — the delta-frame parser accepts a header exactly when the
payload has at least `MIN_DELTA_HEADER_SZ` bytes, the declared `header_sz`
lies between `MIN_DELTA_HEADER_SZ` and the payload size, and the
recomputed checksum over `[header_sz_offset, header_sz)` equals the stored
one; in every other case (tampered checksum included) the frame is treated
as headerless: the header stays default-initialized (nil uuid) and the
entire payload is offered to the `deserializeDelta` hook.  On acceptance
the hook gets the payload with `header_sz` bytes stripped. -/
theorem claim_c6 {D : Type} (chk : List Nat → Nat)
    (deserialize_delta : List Nat → Option D) (payload : List Nat) :
    ((deserializeDeltaHeader chk payload).1 = true ↔
      (payload.length ≥ MIN_DELTA_HEADER_SZ ∧
       MIN_DELTA_HEADER_SZ ≤
         (readDeltaHeaderBytes payload MIN_DELTA_HEADER_SZ).header_sz ∧
       (readDeltaHeaderBytes payload MIN_DELTA_HEADER_SZ).header_sz ≤
         payload.length ∧
       chk ((payload.drop DELTA_HEADER_SZ_OFFSET).take
          ((readDeltaHeaderBytes payload MIN_DELTA_HEADER_SZ).header_sz -
            DELTA_HEADER_SZ_OFFSET)) =
         (readDeltaHeaderBytes payload MIN_DELTA_HEADER_SZ).checksum)) ∧
    ((deserializeDeltaHeader chk payload).1 = false →
      (deserializeDelta chk deserialize_delta payload).2 = {} ∧
      (deserializeDelta chk deserialize_delta payload).1 =
        deserialize_delta payload) ∧
    ((deserializeDeltaHeader chk payload).1 = true →
      (deserializeDelta chk deserialize_delta payload).1 =
        deserialize_delta
          (payload.drop (deserializeDeltaHeader chk payload).2.header_sz)) := by
  unfold deserializeDelta deserializeDeltaHeader
  simp only []
  split_ifs <;> simp_all
  omega

/-- Claim C7 — `snapshot(cb)` rejects with `E::NOTSUPPORTED` when no
snapshot log is configured, `E::INPROGRESS` when a snapshot write is in
flight, `E::AGAIN` when not yet tailing, `E::FAILED` when
`include_read_ptr` is set and `delta_read_ptr_ < version_`; and skips the
write with `E::UPTODATE` when a snapshot store is configured,
`version_ ≤ last_written_version_`, and either `include_read_ptr` is unset
or `last_snapshot_last_read_ptr_ ≥ delta_read_ptr_`.  In each rejection
and skip case the core state is returned unchanged. -/
theorem claim_c7 (irp : Bool) (s : ReplicatedStateMachine T) :
    (s.snapshot_log_configured = false →
       snapshotOp irp s = (SnapshotOutcome.rejected Status.NOTSUPPORTED, s)) ∧
    (s.snapshot_log_configured = true → s.snapshot_in_flight = true →
       snapshotOp irp s = (SnapshotOutcome.rejected Status.INPROGRESS, s)) ∧
    (s.snapshot_log_configured = true → s.snapshot_in_flight = false →
       s.sync_state ≠ SyncState.TAILING →
       snapshotOp irp s = (SnapshotOutcome.rejected Status.AGAIN, s)) ∧
    (s.snapshot_log_configured = true → s.snapshot_in_flight = false →
       s.sync_state = SyncState.TAILING → irp = true →
       s.delta_read_ptr < s.version →
       snapshotOp irp s = (SnapshotOutcome.rejected Status.FAILED, s)) ∧
    (s.snapshot_log_configured = true → s.snapshot_in_flight = false →
       s.sync_state = SyncState.TAILING →
       (irp = true → s.version ≤ s.delta_read_ptr) →
       s.snapshot_store_configured = true →
       s.version ≤ s.last_written_version →
       (irp = false ∨ s.delta_read_ptr ≤ s.last_snapshot_last_read_ptr) →
       snapshotOp irp s = (SnapshotOutcome.skippedUpToDate, s)) := by
  unfold snapshotOp
  refine ⟨fun h1 => ?_, fun h1 h2 => ?_, fun h1 h2 h3 => ?_,
          fun h1 h2 h3 h4 h5 => ?_, fun h1 h2 h3 h4 h5 h6 h7 => ?_⟩
  · simp [h1]
  · simp [h1, h2]
  · simp [h1, h2, h3]
  · simp only []
    split_ifs with hc1 hc2 hc3 hc4 hc5
    · simp_all
    · simp_all
    · simp_all
    · rfl
    · exact absurd ⟨h4, h5⟩ hc4
    · exact absurd ⟨h4, h5⟩ hc4
  · simp only []
    split_ifs with hc1 hc2 hc3 hc4 hc5
    · simp_all
    · simp_all
    · simp_all
    · exfalso
      obtain ⟨hi, hlt⟩ := hc4
      have hle := h4 hi
      omega
    · exfalso
      rcases hc5 with hst | hlw | ⟨hi, hlt⟩
      · simp_all
      · omega
      · rcases h7 with h7 | h7
        · simp_all
        · omega
    · rfl

theorem claim_c7_witness :
    c7State.snapshot_log_configured = false ∧
    snapshotOp true c7State = (SnapshotOutcome.rejected Status.NOTSUPPORTED,
      c7State) :=
  ⟨rfl, (claim_c7 true c7State).1 rfl⟩

theorem claim_c6_witness :
    (deserializeDeltaHeader c6Chk c6Payload).1 = true ∧
    (deserializeDeltaHeader c6Chk [1, 2, 3]).1 = false ∧
    (deserializeDelta c6Chk c6Deser [1, 2, 3]).2 = {} ∧
    (deserializeDelta c6Chk c6Deser [1, 2, 3]).1 = c6Deser [1, 2, 3] :=
  ⟨(claim_c6 c6Chk c6Deser c6Payload).1.mpr (by decide), by decide,
   ((claim_c6 c6Chk c6Deser [1, 2, 3]).2.1 (by decide)).1,
   ((claim_c6 c6Chk c6Deser [1, 2, 3]).2.1 (by decide)).2⟩

theorem discardLoop_events_shape (v : Nat) (p : List PendingEntry) :
    ∀ ev ∈ (discardLoop v p).2, ∃ u l,
      ev = Event.confirm u Status.FAILED l "Cannot confirm operation" := by
  induction p with
  | nil => intro ev h; simp [discardLoop] at h
  | cons e rest ih =>
    intro ev h
    unfold discardLoop at h
    split_ifs at h
    · simp only [List.mem_cons] at h
      rcases h with h | h
      · exact ⟨e.uuid, e.lsn, h⟩
      · exact ih ev h
    · simp at h

theorem discardLoop_applyEvents (v : Nat) (p : List PendingEntry) :
    applyEvents (discardLoop v p).2 = [] := by
  simp only [applyEvents, List.filter_eq_nil_iff]
  intro ev h
  obtain ⟨u, l, rfl⟩ := discardLoop_events_shape v p ev h
  simp [isApplyEvent]

theorem notifySubscribers_applyEvents (s : ReplicatedStateMachine T) (b : Bool) :
    applyEvents (notifySubscribers s b).2 = [] := by
  unfold notifySubscribers applyEvents
  split_ifs <;> simp [List.filter_eq_nil_iff, isApplyEvent]

theorem notifySubscribers_confirmEvents (s : ReplicatedStateMachine T) (b : Bool) :
    confirmEvents (notifySubscribers s b).2 = [] := by
  unfold notifySubscribers confirmEvents
  split_ifs <;> simp [List.filter_eq_nil_iff, isConfirmEvent]

theorem onReached_applyEvents (s : ReplicatedStateMachine T) :
    applyEvents (onReachedDeltaLogTailLSN s).2 = [] := by
  unfold onReachedDeltaLogTailLSN
  simp only []
  split_ifs
  all_goals first
    | exact notifySubscribers_applyEvents _ _
    | rfl

theorem onReached_confirmEvents (s : ReplicatedStateMachine T) :
    confirmEvents (onReachedDeltaLogTailLSN s).2 = [] := by
  unfold onReachedDeltaLogTailLSN
  simp only []
  split_ifs
  all_goals first
    | exact notifySubscribers_confirmEvents _ _
    | rfl

theorem applyEvents_append (a b : List Event) :
    applyEvents (a ++ b) = applyEvents a ++ applyEvents b := by
  simp [applyEvents]

theorem confirmEvents_append (a b : List Event) :
    confirmEvents (a ++ b) = confirmEvents a ++ confirmEvents b := by
  simp [confirmEvents]

theorem discard_applyEvents (s : ReplicatedStateMachine T) :
    applyEvents (discardSkippedPendingDeltas s).2 = [] :=
  discardLoop_applyEvents _ _

theorem confirmStep_version (st : Status) (fr : String) (u l : Nat)
    (s : ReplicatedStateMachine T) :
    (deltaConfirmStep st fr u l s).1.version = s.version := by
  unfold deltaConfirmStep; split_ifs <;> rfl

theorem confirmStep_lsv (st : Status) (fr : String) (u l : Nat)
    (s : ReplicatedStateMachine T) :
    (deltaConfirmStep st fr u l s).1.last_snapshot_version =
      s.last_snapshot_version := by
  unfold deltaConfirmStep; split_ifs <;> rfl

theorem confirmStep_lsrp (st : Status) (fr : String) (u l : Nat)
    (s : ReplicatedStateMachine T) :
    (deltaConfirmStep st fr u l s).1.last_snapshot_last_read_ptr =
      s.last_snapshot_last_read_ptr := by
  unfold deltaConfirmStep; split_ifs <;> rfl

theorem confirmStep_drp (st : Status) (fr : String) (u l : Nat)
    (s : ReplicatedStateMachine T) :
    (deltaConfirmStep st fr u l s).1.delta_read_ptr = s.delta_read_ptr := by
  unfold deltaConfirmStep; split_ifs <;> rfl

theorem confirmStep_blocked_events (st : Status) (fr : String) (u l : Nat)
    (s : ReplicatedStateMachine T) (h : s.state_delivery_blocked = true) :
    (deltaConfirmStep st fr u l s).2 = [] := by
  unfold deltaConfirmStep; split_ifs <;> simp_all

theorem deltaRecordTail_version (st : Status) (fr : String)
    (rec : DeltaRecord D) (s2 : ReplicatedStateMachine T)
    (applyEvs : List Event) :
    (deltaRecordTail st fr rec s2 applyEvs).2.1.version = s2.version := by
  unfold deltaRecordTail
  simp only []
  split_ifs <;>
    simp [onReached_version, notifySubscribers_version, discard_version,
      confirmStep_version]

theorem deltaRecordTail_lsv (st : Status) (fr : String)
    (rec : DeltaRecord D) (s2 : ReplicatedStateMachine T)
    (applyEvs : List Event) :
    (deltaRecordTail st fr rec s2 applyEvs).2.1.last_snapshot_version =
      s2.last_snapshot_version := by
  unfold deltaRecordTail
  simp only []
  split_ifs <;>
    simp [onReached_lsv, notifySubscribers_lsv, discard_lsv, confirmStep_lsv]

theorem deltaRecordTail_lsrp (st : Status) (fr : String)
    (rec : DeltaRecord D) (s2 : ReplicatedStateMachine T)
    (applyEvs : List Event) :
    (deltaRecordTail st fr rec s2 applyEvs).2.1.last_snapshot_last_read_ptr =
      s2.last_snapshot_last_read_ptr := by
  unfold deltaRecordTail
  simp only []
  split_ifs <;>
    simp [onReached_lsrp, notifySubscribers_lsrp, discard_lsrp,
      confirmStep_lsrp]

theorem onDeltaRecord_lsv (f : D → T → Nat → ApplyResult T)
    (rec : DeltaRecord D) (s : ReplicatedStateMachine T) :
    (onDeltaRecord f rec s).2.1.last_snapshot_version =
      s.last_snapshot_version := by
  unfold onDeltaRecord
  simp only []
  cases hd : rec.decoded
  all_goals try simp only []
  all_goals split_ifs
  all_goals simp_all [deltaRecordTail_lsv]

theorem onDeltaRecord_lsrp (f : D → T → Nat → ApplyResult T)
    (rec : DeltaRecord D) (s : ReplicatedStateMachine T) :
    (onDeltaRecord f rec s).2.1.last_snapshot_last_read_ptr =
      s.last_snapshot_last_read_ptr := by
  unfold onDeltaRecord
  simp only []
  cases hd : rec.decoded
  all_goals try simp only []
  all_goals split_ifs
  all_goals simp_all [deltaRecordTail_lsrp]

theorem onDeltaRecord_version_ge (f : D → T → Nat → ApplyResult T)
    (rec : DeltaRecord D) (s : ReplicatedStateMachine T) :
    s.version ≤ (onDeltaRecord f rec s).2.1.version := by
  unfold onDeltaRecord
  simp only []
  cases hd : rec.decoded
  all_goals try simp only []
  all_goals split_ifs
  all_goals simp_all [deltaRecordTail_version]
  all_goals omega

theorem applySnap_version (d : T) (h : RSMSnapshotHeader)
    (s : ReplicatedStateMachine T) :
    (applySnapshotState d h s).version = h.base_version := rfl

theorem applySnap_lsv (d : T) (h : RSMSnapshotHeader)
    (s : ReplicatedStateMachine T) :
    (applySnapshotState d h s).last_snapshot_version = h.base_version := rfl

theorem applySnap_lsrp (d : T) (h : RSMSnapshotHeader)
    (s : ReplicatedStateMachine T) :
    (applySnapshotState d h s).last_snapshot_last_read_ptr =
      if h.has_read_ptr = true then h.delta_log_read_ptr else LSN_INVALID :=
  rfl

theorem applySnap_waiting (d : T) (h : RSMSnapshotHeader)
    (s : ReplicatedStateMachine T) :
    (applySnapshotState d h s).waiting_for_snapshot =
      s.waiting_for_snapshot := rfl

theorem applySnap_syncState (d : T) (h : RSMSnapshotHeader)
    (s : ReplicatedStateMachine T) :
    (applySnapshotState d h s).sync_state = s.sync_state := rfl

theorem applySnap_dwr (d : T) (h : RSMSnapshotHeader)
    (s : ReplicatedStateMachine T) :
    (applySnapshotState d h s).deliver_while_replaying =
      s.deliver_while_replaying := rfl

theorem applySnap_blocked (d : T) (h : RSMSnapshotHeader)
    (s : ReplicatedStateMachine T) :
    (applySnapshotState d h s).state_delivery_blocked =
      s.state_delivery_blocked := rfl

theorem applySnap_pending (d : T) (h : RSMSnapshotHeader)
    (s : ReplicatedStateMachine T) :
    (applySnapshotState d h s).pending_confirmation =
      s.pending_confirmation := rfl

theorem applySnap_subscribers (d : T) (h : RSMSnapshotHeader)
    (s : ReplicatedStateMachine T) :
    (applySnapshotState d h s).subscribers = s.subscribers := rfl

theorem updateReadPtr_version (h : RSMSnapshotHeader)
    (s : ReplicatedStateMachine T) :
    (updateReadPtrState h s).version = s.version := rfl

theorem updateReadPtr_lsv (h : RSMSnapshotHeader)
    (s : ReplicatedStateMachine T) :
    (updateReadPtrState h s).last_snapshot_version =
      s.last_snapshot_version := rfl

theorem updateReadPtr_lsrp (h : RSMSnapshotHeader)
    (s : ReplicatedStateMachine T) :
    (updateReadPtrState h s).last_snapshot_last_read_ptr =
      h.delta_log_read_ptr := rfl

theorem updateReadPtr_waiting (h : RSMSnapshotHeader)
    (s : ReplicatedStateMachine T) :
    (updateReadPtrState h s).waiting_for_snapshot =
      s.waiting_for_snapshot := rfl

theorem maxOffsets_version (h : RSMSnapshotHeader)
    (s : ReplicatedStateMachine T) :
    (maxOffsetsState h s).version = s.version := rfl

theorem maxOffsets_lsv (h : RSMSnapshotHeader)
    (s : ReplicatedStateMachine T) :
    (maxOffsetsState h s).last_snapshot_version =
      s.last_snapshot_version := rfl

theorem maxOffsets_lsrp (h : RSMSnapshotHeader)
    (s : ReplicatedStateMachine T) :
    (maxOffsetsState h s).last_snapshot_last_read_ptr =
      s.last_snapshot_last_read_ptr := rfl

theorem maxOffsets_waiting (h : RSMSnapshotHeader)
    (s : ReplicatedStateMachine T) :
    (maxOffsetsState h s).waiting_for_snapshot =
      s.waiting_for_snapshot := rfl

theorem maxOffsets_pending (h : RSMSnapshotHeader)
    (s : ReplicatedStateMachine T) :
    (maxOffsetsState h s).pending_confirmation =
      s.pending_confirmation := rfl

theorem commonTail_fst (attrs : SnapshotAttributes)
    (s : ReplicatedStateMachine T) (evs : List Event) :
    (processSnapshotCommonTail attrs s evs).1 = true := rfl

theorem commonTail_lsrp (attrs : SnapshotAttributes)
    (s : ReplicatedStateMachine T) (evs : List Event) :
    (processSnapshotCommonTail attrs s evs).2.1.last_snapshot_last_read_ptr =
      s.last_snapshot_last_read_ptr := by
  unfold processSnapshotCommonTail
  simp only []
  split_ifs <;> simp_all [discard_lsrp, onBase_lsrp]

theorem commonTail_waiting (attrs : SnapshotAttributes)
    (s : ReplicatedStateMachine T) (evs : List Event) :
    (processSnapshotCommonTail attrs s evs).2.1.waiting_for_snapshot =
      if s.waiting_for_snapshot ≠ LSN_INVALID ∧
         (s.version ≥ s.waiting_for_snapshot ∨
          s.last_snapshot_last_read_ptr ≥ s.waiting_for_snapshot)
      then LSN_INVALID else s.waiting_for_snapshot := by
  unfold processSnapshotCommonTail
  simp only []
  split_ifs <;>
    simp_all [discard_waiting, onBase_waiting, onBase_version, onBase_lsv,
      onBase_lsrp]

theorem confirmStep_applyEvents (st : Status) (fr : String) (u l : Nat)
    (s : ReplicatedStateMachine T) :
    applyEvents (deltaConfirmStep st fr u l s).2 = [] := by
  unfold deltaConfirmStep
  split_ifs <;> simp [applyEvents, isApplyEvent]

theorem applyEvents_nil : applyEvents ([] : List Event) = [] := rfl

theorem confirmEvents_nil : confirmEvents ([] : List Event) = [] := rfl

theorem deltaRecordTail_applyEvents (st : Status) (fr : String)
    (rec : DeltaRecord D) (s2 : ReplicatedStateMachine T)
    (applyEvs : List Event) :
    applyEvents (deltaRecordTail st fr rec s2 applyEvs).2.2 =
      applyEvents applyEvs := by
  unfold deltaRecordTail
  simp only []
  split_ifs <;>
    simp only [applyEvents_append, confirmStep_applyEvents,
      discard_applyEvents, notifySubscribers_applyEvents,
      onReached_applyEvents, applyEvents_nil, List.append_nil]

/-- Claim C4 — `onDeltaRecord` (when not stalled) invokes `applyDelta`
only for records with `lsn > version_` and
`lsn > last_snapshot_last_read_ptr_` taken before the call; otherwise the
record is skipped with only `delta_read_ptr_` advanced and no side effect.
For a processed record `version_` becomes `record.lsn` exactly when
`applyDelta` succeeds; on decode or apply failure `version_`,
`last_snapshot_version_`, and `last_snapshot_last_read_ptr_` are left
unchanged. -/
theorem claim_c4 (f : D → T → Nat → ApplyResult T) (rec : DeltaRecord D)
    (s : ReplicatedStateMachine T)
    (hw : s.waiting_for_snapshot = LSN_INVALID) :
    (rec.lsn ≤ s.version ∨ rec.lsn ≤ s.last_snapshot_last_read_ptr →
      onDeltaRecord f rec s = (true, { s with delta_read_ptr := rec.lsn }, [])) ∧
    (rec.lsn > s.version → rec.lsn > s.last_snapshot_last_read_ptr →
      (applyEvents (onDeltaRecord f rec s).2.2 =
        (match rec.decoded with
         | none => []
         | some d => [Event.applyInvoked rec.lsn (f d s.data rec.lsn).ok])) ∧
      (∀ d, rec.decoded = some d →
        ((f d s.data rec.lsn).ok = true ↔
          (onDeltaRecord f rec s).2.1.version = rec.lsn)) ∧
      (∀ d, rec.decoded = some d → (f d s.data rec.lsn).ok = false →
        (onDeltaRecord f rec s).2.1.version = s.version) ∧
      (rec.decoded = none →
        (onDeltaRecord f rec s).2.1.version = s.version) ∧
      (onDeltaRecord f rec s).2.1.last_snapshot_version =
        s.last_snapshot_version ∧
      (onDeltaRecord f rec s).2.1.last_snapshot_last_read_ptr =
        s.last_snapshot_last_read_ptr) := by
  have hwn : ¬(s.waiting_for_snapshot ≠ LSN_INVALID) := by simp [hw]
  constructor
  · intro hskip
    unfold onDeltaRecord
    simp only []
    rw [if_neg hwn, if_pos hskip]
  · intro hv hr
    have hskip : ¬(rec.lsn ≤ s.version ∨
        rec.lsn ≤ s.last_snapshot_last_read_ptr) := by omega
    refine ⟨?_, ?_, ?_, ?_, onDeltaRecord_lsv f rec s,
      onDeltaRecord_lsrp f rec s⟩
    · unfold onDeltaRecord
      simp only []
      rw [if_neg hwn, if_neg hskip]
      cases hdec : rec.decoded with
      | none =>
        simp only []
        rw [deltaRecordTail_applyEvents]
        rfl
      | some d =>
        simp only []
        split_ifs with hok
        · rw [deltaRecordTail_applyEvents]
          simp [applyEvents, isApplyEvent, hok]
        · rw [deltaRecordTail_applyEvents]
          simp only [applyEvents, isApplyEvent, List.filter]
          simp [Bool.not_eq_true] at hok
          simp [hok]
    · intro d hd
      unfold onDeltaRecord
      simp only []
      rw [if_neg hwn, if_neg hskip, hd]
      simp only []
      split_ifs with hok
      · simp [deltaRecordTail_version, hok]
      · simp only [deltaRecordTail_version]
        constructor
        · intro h
          exact absurd h hok
        · intro h
          exfalso
          have hvv : s.version = rec.lsn := by simpa using h
          omega
    · intro d hd hfail
      unfold onDeltaRecord
      simp only []
      rw [if_neg hwn, if_neg hskip, hd]
      simp only []
      split_ifs with hok
      · rw [hfail] at hok
        exact absurd hok (by simp)
      · simp [deltaRecordTail_version]
    · intro hd
      unfold onDeltaRecord
      simp only []
      rw [if_neg hwn, if_neg hskip, hd]
      simp [deltaRecordTail_version]

theorem claim_c4_witness :
    c4State.waiting_for_snapshot = LSN_INVALID ∧
    (onDeltaRecord exApply c4Record c4State).2.1.version = 9 :=
  ⟨rfl,
   (((claim_c4 exApply c4Record c4State rfl).2 (by decide) (by decide)).2.1
     2 rfl).mp rfl⟩

/-- Claim C5 — while `waiting_for_snapshot_ ≠ LSN_INVALID`, a delta record
or delta gap returns `false` with the state and events untouched (the
stream stalls); and a snapshot clears the wait exactly when the call
succeeds and leaves `version_` or `last_snapshot_last_read_ptr_` at or
past `waiting_for_snapshot_`. -/
theorem claim_c5 (f : D → T → Nat → ApplyResult T) (mk : Nat → T)
    (rec : DeltaRecord D) (gap : GapRecord)
    (dec : Option (T × RSMSnapshotHeader)) (attrs : SnapshotAttributes)
    (s : ReplicatedStateMachine T)
    (hw : s.waiting_for_snapshot ≠ LSN_INVALID) :
    onDeltaRecord f rec s = (false, s, []) ∧
    onDeltaGap mk gap s = (false, s, []) ∧
    ((processSnapshot dec attrs s).2.1.waiting_for_snapshot = LSN_INVALID ↔
      ((processSnapshot dec attrs s).1 = true ∧
       (s.waiting_for_snapshot ≤ (processSnapshot dec attrs s).2.1.version ∨
        s.waiting_for_snapshot ≤
          (processSnapshot dec attrs s).2.1.last_snapshot_last_read_ptr))) := by
  refine ⟨?_, ?_, ?_⟩
  · unfold onDeltaRecord
    rw [if_pos hw]
  · unfold onDeltaGap
    rw [if_pos hw]
  · unfold processSnapshot
    cases dec with
    | none =>
      simp only []
      split_ifs with hc
      · simp [hw]
      · simp only [commonTail_fst, commonTail_waiting, commonTail_version,
          commonTail_lsrp]
        try dsimp only
        split_ifs with hcond <;> simp_all
    | some p =>
      obtain ⟨newData, header⟩ := p
      simp only []
      by_cases hb : header.base_version > s.version
      · rw [if_pos hb]
        have hguard : ¬(s.sync_state = SyncState.TAILING ∧
            s.waiting_for_snapshot = LSN_INVALID) := fun hcontra => hw hcontra.2
        rw [if_neg hguard]
        simp only []
        rw [if_neg (by simp : ¬((true, s).1 = false))]
        split_ifs with hn
        all_goals
          simp only [commonTail_fst, commonTail_waiting, commonTail_version,
            commonTail_lsrp, maxOffsets_version, maxOffsets_lsrp,
            maxOffsets_waiting, notifySubscribers_version,
            notifySubscribers_lsrp, notifySubscribers_waiting,
            applySnap_version, applySnap_lsrp, applySnap_waiting]
        all_goals split_ifs with hcond hcond2 <;> simp_all
      · rw [if_neg hb]
        split_ifs with hrp
        all_goals
          simp only [commonTail_fst, commonTail_waiting, commonTail_version,
            commonTail_lsrp, maxOffsets_version, maxOffsets_lsrp,
            maxOffsets_waiting, updateReadPtr_version, updateReadPtr_lsrp,
            updateReadPtr_waiting]
        all_goals split_ifs with hcond <;> simp_all

theorem claim_c5_witness :
    c5State.waiting_for_snapshot ≠ LSN_INVALID ∧
    onDeltaRecord exApply c5Record c5State = (false, c5State, []) ∧
    onDeltaGap exMakeDefault c5Gap c5State = (false, c5State, []) :=
  ⟨by decide,
   (claim_c5 exApply exMakeDefault c5Record c5Gap none ⟨0⟩ c5State
     (by decide)).1,
   (claim_c5 exApply exMakeDefault c5Record c5Gap none ⟨0⟩ c5State
     (by decide)).2.1⟩

theorem discard_events_shape (s : ReplicatedStateMachine T) :
    ∀ ev ∈ (discardSkippedPendingDeltas s).2, ∃ u l,
      ev = Event.confirm u Status.FAILED l "Cannot confirm operation" :=
  fun ev h =>
    discardLoop_events_shape s.version s.pending_confirmation ev h

theorem notify_not_confirm (s : ReplicatedStateMachine T) (b : Bool)
    (ev : Event) (h : ev ∈ (notifySubscribers s b).2)
    (hc : isConfirmEvent ev = true) : False := by
  have hmem2 : ev ∈ confirmEvents (notifySubscribers s b).2 :=
    List.mem_filter.mpr ⟨h, hc⟩
  rw [notifySubscribers_confirmEvents] at hmem2
  cases hmem2

theorem onReached_not_confirm (s : ReplicatedStateMachine T)
    (ev : Event) (h : ev ∈ (onReachedDeltaLogTailLSN s).2)
    (hc : isConfirmEvent ev = true) : False := by
  have hmem2 : ev ∈ confirmEvents (onReachedDeltaLogTailLSN s).2 :=
    List.mem_filter.mpr ⟨h, hc⟩
  rw [onReached_confirmEvents] at hmem2
  cases hmem2

theorem confirmStep_blocked_no_events (st : Status) (fr : String)
    (u l : Nat) (s : ReplicatedStateMachine T) (ev : Event)
    (h : ev ∈ (deltaConfirmStep st fr u l s).2)
    (hb : s.state_delivery_blocked = true) : False := by
  rw [confirmStep_blocked_events _ _ _ _ _ hb] at h
  cases h

theorem deltaRecordTail_confirm_shape (st : Status) (fr : String)
    (rec : DeltaRecord D) (s2 : ReplicatedStateMachine T)
    (applyEvs : List Event) (hb : s2.state_delivery_blocked = true)
    (hA : ∀ ev ∈ applyEvs, isConfirmEvent ev = false) :
    ∀ ev ∈ confirmEvents (deltaRecordTail st fr rec s2 applyEvs).2.2, ∃ u l,
      ev = Event.confirm u Status.FAILED l "Cannot confirm operation" := by
  unfold deltaRecordTail
  simp only []
  intro ev hev
  rw [confirmEvents, List.mem_filter] at hev
  obtain ⟨hmem, hconf⟩ := hev
  simp only [List.mem_append] at hmem
  rcases hmem with ((((hA2 | hU) | hD) | hN) | hT)
  · rw [hA ev hA2] at hconf
    simp at hconf
  · exact (confirmStep_blocked_no_events _ _ _ _ _ ev hU hb).elim
  · exact discard_events_shape _ ev hD
  · repeat' split at hN
    all_goals first
      | exact (notify_not_confirm _ _ ev hN hconf).elim
      | simp at hN
  · repeat' split at hT
    all_goals first
      | exact (onReached_not_confirm _ ev hT hconf).elim
      | simp at hT

theorem commonTail_confirm_shape (attrs : SnapshotAttributes)
    (s : ReplicatedStateMachine T) (evs : List Event)
    (hA : ∀ ev ∈ evs, isConfirmEvent ev = false) :
    ∀ ev ∈ confirmEvents (processSnapshotCommonTail attrs s evs).2.2, ∃ u l,
      ev = Event.confirm u Status.FAILED l "Cannot confirm operation" := by
  unfold processSnapshotCommonTail
  simp only []
  intro ev hev
  rw [confirmEvents, List.mem_filter] at hev
  obtain ⟨hmem, hconf⟩ := hev
  simp only [List.mem_append] at hmem
  rcases hmem with ((hE | hD) | hR)
  · rw [hA ev hE] at hconf
    simp at hconf
  · exact discard_events_shape _ ev hD
  · repeat' split at hR
    all_goals first
      | (simp at hR
         subst hR
         simp [isConfirmEvent] at hconf)
      | simp at hR

/-- Claim C3, amended — while `state_delivery_blocked_` is set, the
uuid-matched per-delta confirmation callback in `onDeltaRecord` is
suppressed (deferred, not fired with the delta's status): every
pending-confirmation callback fired during a delta record or a snapshot
while blocked comes from `discardSkippedPendingDeltas`, i.e. carries
`E::FAILED` and "Cannot confirm operation" — the discard path is *not*
suppressed by the flag. -/
theorem claim_c3 (f : D → T → Nat → ApplyResult T) (rec : DeltaRecord D)
    (dec : Option (T × RSMSnapshotHeader)) (attrs : SnapshotAttributes)
    (s : ReplicatedStateMachine T)
    (hb : s.state_delivery_blocked = true) :
    (∀ ev ∈ confirmEvents (onDeltaRecord f rec s).2.2, ∃ u l,
       ev = Event.confirm u Status.FAILED l "Cannot confirm operation") ∧
    (∀ ev ∈ confirmEvents (processSnapshot dec attrs s).2.2, ∃ u l,
       ev = Event.confirm u Status.FAILED l "Cannot confirm operation") := by
  constructor
  · unfold onDeltaRecord
    simp only []
    split_ifs with h1 h2
    · intro ev hev
      cases hev
    · intro ev hev
      cases hev
    · cases hd : rec.decoded with
      | none =>
        exact deltaRecordTail_confirm_shape _ _ _ _ _ hb
          (by intro ev h; cases h)
      | some d =>
        simp only []
        split_ifs with hok
        · exact deltaRecordTail_confirm_shape _ _ _ _ _ hb
            (by intro ev h; simp at h; rw [h]; rfl)
        · exact deltaRecordTail_confirm_shape _ _ _ _ _ hb
            (by intro ev h; simp at h; rw [h]; rfl)
  · unfold processSnapshot
    cases dec with
    | none =>
      simp only []
      split_ifs with hc
      · intro ev hev
        simp [confirmEvents, isConfirmEvent] at hev
      · exact commonTail_confirm_shape _ _ _
          (by intro ev h; simp at h; rw [h]; rfl)
    | some p =>
      obtain ⟨newData, header⟩ := p
      simp only []
      by_cases hv : header.base_version > s.version
      · rw [if_pos hv]
        by_cases hff : s.sync_state = SyncState.TAILING ∧
            s.waiting_for_snapshot = LSN_INVALID
        · rw [if_pos hff]
          by_cases hffb : (canFastForward s header.base_version).1 = false
          · rw [if_pos hffb]
            intro ev hev
            cases hev
          · rw [if_neg hffb]
            split_ifs with hn
            · exact commonTail_confirm_shape _ _ _
                (fun ev h => by
                  by_contra hc
                  exact notify_not_confirm _ _ ev h (by simpa using hc))
            · exact commonTail_confirm_shape _ _ _ (fun ev h => by cases h)
        · rw [if_neg hff]
          simp only []
          rw [if_neg (by simp : ¬((true, s).1 = false))]
          split_ifs with hn
          · exact commonTail_confirm_shape _ _ _
              (fun ev h => by
                  by_contra hc
                  exact notify_not_confirm _ _ ev h (by simpa using hc))
          · exact commonTail_confirm_shape _ _ _ (fun ev h => by cases h)
      · rw [if_neg hv]
        split_ifs with hrp
        · exact commonTail_confirm_shape _ _ _ (fun ev h => by cases h)
        · exact commonTail_confirm_shape _ _ _ (fun ev h => by cases h)

/-- Claim C8 — with no snapshot log configured, a delta gap with
`hi > version_` and `hi > last_snapshot_last_read_ptr_` resets the state
on TRIM (`version_ = gap.hi`, `data_ = makeDefaultState(version_)`, with
subscribers notified when tailing or delivering while replaying), while
DATALOSS only logs a critical message and leaves `data_`, `version_` and
`waiting_for_snapshot_` unchanged. -/
theorem claim_c8 (mk : Nat → T) (gap : GapRecord)
    (s : ReplicatedStateMachine T)
    (hcfg : s.snapshot_log_configured = false)
    (hw : s.waiting_for_snapshot = LSN_INVALID)
    (hv : gap.hi > s.version) (hr : gap.hi > s.last_snapshot_last_read_ptr) :
    (gap.type = GapType.TRIM →
       (onDeltaGap mk gap s).2.1.version = gap.hi ∧
       (onDeltaGap mk gap s).2.1.data = mk gap.hi ∧
       ((s.sync_state = SyncState.TAILING ∨ s.deliver_while_replaying = true) →
         s.state_delivery_blocked = false → s.subscribers ≠ [] →
         ∃ rest, (onDeltaGap mk gap s).2.2 =
           s.subscribers.map (fun i => Event.notify i gap.hi false) ++ rest)) ∧
    (gap.type = GapType.DATALOSS →
       (onDeltaGap mk gap s).2.1.version = s.version ∧
       (onDeltaGap mk gap s).2.1.data = s.data ∧
       (onDeltaGap mk gap s).2.1.waiting_for_snapshot = LSN_INVALID ∧
       Event.logCritical ∈ (onDeltaGap mk gap s).2.2) := by
  have hwn : ¬(s.waiting_for_snapshot ≠ LSN_INVALID) := by simp [hw]
  have hskip : ¬(gap.hi ≤ s.version ∨
      gap.hi ≤ s.last_snapshot_last_read_ptr) := by omega
  constructor
  · intro htrim
    unfold onDeltaGap
    simp only []
    rw [if_neg hwn, if_neg hskip, if_pos hcfg,
      if_neg (by simp [htrim] : ¬(gap.type = GapType.DATALOSS)), if_pos htrim]
    refine ⟨?_, ?_, ?_⟩
    · split_ifs <;>
        simp [onReached_version, notifySubscribers_version]
    · split_ifs <;>
        simp [onReached_data, notifySubscribers_data]
    · intro hTD hb hs
      rw [if_pos hTD]
      rw [notifySubscribers_events_open]
      · dsimp only
        exact ⟨_, rfl⟩
      · exact hb
      · exact hs
  · intro hdl
    unfold onDeltaGap
    simp only []
    rw [if_neg hwn, if_neg hskip, if_pos hcfg, if_pos hdl]
    refine ⟨?_, ?_, ?_, ?_⟩
    · split_ifs <;>
        simp [onReached_version, notifySubscribers_version]
    · split_ifs <;>
        simp [onReached_data, notifySubscribers_data]
    · split_ifs <;>
        simp [onReached_waiting, notifySubscribers_waiting, hw]
    · split_ifs <;> simp

theorem claim_c8_witness :
    c8State.snapshot_log_configured = false ∧
    (onDeltaGap exMakeDefault c8TrimGap c8State).2.1.version = 9 ∧
    (onDeltaGap exMakeDefault c8DatalossGap c8State).2.1.version = 5 :=
  ⟨rfl,
   ((claim_c8 exMakeDefault c8TrimGap c8State rfl rfl (by decide)
     (by decide)).1 rfl).1,
   ((claim_c8 exMakeDefault c8DatalossGap c8State rfl rfl (by decide)
     (by decide)).2 rfl).1⟩

theorem processSnapshot_version_mono (dec : Option (T × RSMSnapshotHeader))
    (attrs : SnapshotAttributes) (s : ReplicatedStateMachine T) :
    s.version ≤ (processSnapshot dec attrs s).2.1.version := by
  unfold processSnapshot
  cases dec with
  | none =>
    simp only []
    split_ifs <;> simp [commonTail_version]
  | some p =>
    obtain ⟨newData, header⟩ := p
    simp only []
    by_cases hb : header.base_version > s.version
    · rw [if_pos hb]
      split_ifs <;>
        simp_all [commonTail_version, maxOffsets_version,
          notifySubscribers_version, applySnap_version,
          canFastForward_version] <;>
        omega
    · rw [if_neg hb]
      split_ifs <;>
        simp [commonTail_version, maxOffsets_version, updateReadPtr_version]

theorem processSnapshot_lsv_le (dec : Option (T × RSMSnapshotHeader))
    (attrs : SnapshotAttributes) (s : ReplicatedStateMachine T)
    (h : s.last_snapshot_version ≤ s.version) :
    (processSnapshot dec attrs s).2.1.last_snapshot_version ≤
      (processSnapshot dec attrs s).2.1.version := by
  unfold processSnapshot
  cases dec with
  | none =>
    simp only []
    split_ifs <;> simp_all [commonTail_version, commonTail_lsv]
  | some p =>
    obtain ⟨newData, header⟩ := p
    simp only []
    by_cases hb : header.base_version > s.version
    · rw [if_pos hb]
      split_ifs <;>
        simp_all [commonTail_version, commonTail_lsv, maxOffsets_version,
          maxOffsets_lsv, notifySubscribers_version, notifySubscribers_lsv,
          applySnap_version, applySnap_lsv, canFastForward_version,
          canFastForward_lsv]
    · rw [if_neg hb]
      split_ifs <;>
        simp_all [commonTail_version, commonTail_lsv, maxOffsets_version,
          maxOffsets_lsv, updateReadPtr_version, updateReadPtr_lsv]

theorem onDeltaGap_version_mono (mk : Nat → T) (gap : GapRecord)
    (s : ReplicatedStateMachine T) :
    s.version ≤ (onDeltaGap mk gap s).2.1.version := by
  unfold onDeltaGap
  simp only []
  split_ifs <;>
    simp_all [onReached_version, notifySubscribers_version] <;> omega

theorem onDeltaGap_lsv (mk : Nat → T) (gap : GapRecord)
    (s : ReplicatedStateMachine T) :
    (onDeltaGap mk gap s).2.1.last_snapshot_version =
      s.last_snapshot_version := by
  unfold onDeltaGap
  simp only []
  split_ifs <;> simp [onReached_lsv, notifySubscribers_lsv]

theorem onDeltaRecord_lsv_le (f : D → T → Nat → ApplyResult T)
    (rec : DeltaRecord D) (s : ReplicatedStateMachine T)
    (h : s.last_snapshot_version ≤ s.version) :
    (onDeltaRecord f rec s).2.1.last_snapshot_version ≤
      (onDeltaRecord f rec s).2.1.version := by
  rw [onDeltaRecord_lsv]
  exact le_trans h (onDeltaRecord_version_ge f rec s)

theorem onDeltaGap_lsv_le (mk : Nat → T) (gap : GapRecord)
    (s : ReplicatedStateMachine T)
    (h : s.last_snapshot_version ≤ s.version) :
    (onDeltaGap mk gap s).2.1.last_snapshot_version ≤
      (onDeltaGap mk gap s).2.1.version := by
  rw [onDeltaGap_lsv]
  exact le_trans h (onDeltaGap_version_mono mk gap s)

theorem step_preserves_lsv (f : D → T → Nat → ApplyResult T)
    (mk : Nat → T) (s s' : ReplicatedStateMachine T)
    (hst : ReplicatedStateMachine.Step f mk s s')
    (h : s.last_snapshot_version ≤ s.version) :
    s'.last_snapshot_version ≤ s'.version := by
  cases hst with
  | snapshot dec attrs s => exact processSnapshot_lsv_le dec attrs s h
  | deltaRecord rec s hpre => exact onDeltaRecord_lsv_le f rec s h
  | deltaGap gap s hpre => exact onDeltaGap_lsv_le mk gap s h

/-- Claim C1, amended — on every state reachable from `start()` through
snapshot application, delta records and delta gaps,
`last_snapshot_version_ ≤ version_` holds, and `version_` never decreases
across any operation.  (The claimed bound `version_ ≤ delta_read_ptr_`
does not hold: a snapshot can move `version_` past the delta read
pointer; see the counterexample.) -/
theorem claim_c1 (f : D → T → Nat → ApplyResult T) (mk : Nat → T)
    (cfg : Config) :
    (∀ s, Reachable f mk cfg s → s.last_snapshot_version ≤ s.version) ∧
    (∀ s s', Step f mk s s' → s.version ≤ s'.version) := by
  have hstep : ∀ s s', Step f mk s s' → s.version ≤ s'.version := by
    intro s s' hst
    cases hst with
    | snapshot dec attrs s => exact processSnapshot_version_mono dec attrs s
    | deltaRecord rec s h => exact onDeltaRecord_version_ge f rec s
    | deltaGap gap s h => exact onDeltaGap_version_mono mk gap s
  refine ⟨?_, hstep⟩
  intro s hreach
  induction hreach with
  | init =>
    unfold start
    split_ifs <;> simp [onBase_lsv, onBase_version]
  | step hr hst ih => exact step_preserves_lsv f mk _ _ hst ih

theorem claim_c1_counterexample :
    Reachable exApply exMakeDefault exConfig c1AfterSnapshot ∧
    c1AfterSnapshot.delta_read_ptr < c1AfterSnapshot.version :=
  ⟨Reachable.step Reachable.init
     (Step.snapshot (some (7, c1Header)) ⟨2⟩ c1Start),
   by decide⟩

theorem claim_c1_witness :
    c1Start.last_snapshot_version ≤ c1Start.version :=
  (claim_c1 exApply exMakeDefault exConfig).1 c1Start Reachable.init

theorem claim_c3_counterexample :
    c3State.state_delivery_blocked = true ∧
    confirmEvents (processSnapshot (some (9, c3Header)) ⟨10⟩ c3State).2.2 =
      [Event.confirm 1 Status.FAILED 5 "Cannot confirm operation"] :=
  ⟨rfl, rfl⟩

theorem claim_c3_witness :
    c3State.state_delivery_blocked = true ∧
    (∃ u l, Event.confirm 1 Status.FAILED 5 "Cannot confirm operation" =
       Event.confirm u Status.FAILED l "Cannot confirm operation") :=
  ⟨rfl,
   (claim_c3 exApply c4Record (some (9, c3Header)) ⟨10⟩ c3State rfl).2
     (Event.confirm 1 Status.FAILED 5 "Cannot confirm operation")
     (by decide)⟩

end LogDevice
